import Mathlib

/-!
Shallow embedding of `src/provides.py` (interface-openstack-integration,
provides side): the `OpenStackIntegrationProvides` endpoint and the
`IntegrationRequest` wrapper.

Modelling choices:
* A relation data channel (`to_publish`) is an insertion-ordered key/value
  store, embedded as an association list `List (String × Value)` with
  `update` giving Python `dict.update` semantics (replace in place, append
  new keys at the end) and `get` giving `dict.get` semantics.
* Channel values are JSON-style scalars (`null`, string, int, bool) or a
  flat string-keyed mapping of scalars — every value this module reads or
  writes has one of these shapes.
* Python truthiness (`not data`, `v or ""`) is embedded as `truthy`.
* The reactive flags `endpoint.{endpoint_name}.requests-pending` and
  `endpoint.{endpoint_name}.changed` are two booleans in the endpoint
  state; `toggle_flag(name, b)` sets the flag to `b`, `clear_flag` to
  `false`.
* Stateful methods are embedded as explicit state passing: `all_requests`
  and `new_requests` return the list together with the (possibly memoized)
  endpoint state, mirroring `self._all_requests` caching.
-/

/-- A JSON-style scalar value stored in a relation data channel. -/
inductive Scalar where
  | null : Scalar
  | str : String → Scalar
  | int : Int → Scalar
  | bool : Bool → Scalar
deriving DecidableEq, Repr

/-- A value stored in a relation data channel: a scalar or a flat
string-keyed mapping of scalars. -/
inductive Value where
  | scalar : Scalar → Value
  | dict : List (String × Scalar) → Value
deriving DecidableEq, Repr

/-- Python truthiness of a scalar: `None`, `""`, `0` and `False` are falsy. -/
def Scalar.truthy : Scalar → Bool
  | .null => false
  | .str s => !(s == "")
  | .int n => n != 0
  | .bool b => b

/-- Whether a scalar is a string or `None` — the value domain of the
`Dict[str, str]` signature of `set_proxy_config`, plus the `None` that
`proxy_config` normalizes. -/
def Scalar.isStrOrNull : Scalar → Bool
  | .null => true
  | .str _ => true
  | .int _ => false
  | .bool _ => false

/-- Python truthiness of a channel value: an empty dict is falsy. -/
def Value.truthy : Value → Bool
  | .scalar s => s.truthy
  | .dict es => !es.isEmpty

/-- Python `isinstance(data, dict)`. -/
def Value.isDict : Value → Bool
  | .scalar _ => false
  | .dict _ => true

/-- The entries of a dict value (`data.items()`); empty for a scalar. -/
def Value.dictEntries : Value → List (String × Scalar)
  | .scalar _ => []
  | .dict es => es

/-- A per-unit relation data channel (`unit.relation.to_publish`):
an insertion-ordered key/value store. -/
abbrev Channel := List (String × Value)

/-- Python `dict.get(k)`: the value at key `k`, if present. -/
def Channel.get : Channel → String → Option Value
  | [], _ => none
  | (k', v') :: rest, k => if k' = k then some v' else Channel.get rest k

/-- Write one key: replace an existing binding in place, or append. -/
def Channel.set : Channel → String → Value → Channel
  | [], k, v => [(k, v)]
  | (k', v') :: rest, k, v =>
      if k' = k then (k, v) :: rest else (k', v') :: Channel.set rest k v

/-- Python `dict.update(mapping)`: write every pair in order. -/
def Channel.update (ch : Channel) (kvs : List (String × Value)) : Channel :=
  kvs.foldl (fun c kv => Channel.set c kv.1 kv.2) ch

/-- Python `k in dict`: key membership. -/
def Channel.hasKey (ch : Channel) (k : String) : Bool :=
  ch.any (fun kv => kv.1 = k)

/-- A remote unit as reported by the relation bus: its name and its
relation data channel. -/
structure RemoteUnit where
  unit_name : String
  to_publish : Channel
deriving DecidableEq, Repr

/-- `IntegrationRequest`: a request for integration from a single remote
unit (wraps exactly one unit). -/
structure IntegrationRequest where
  _unit : RemoteUnit
deriving DecidableEq, Repr

/-- `IntegrationRequest._to_publish`: the wrapped unit's channel. -/
def IntegrationRequest.to_publish (r : IntegrationRequest) : Channel :=
  r._unit.to_publish

/-- `IntegrationRequest.has_credentials`:
`'credentials' in self._to_publish`. -/
def IntegrationRequest.has_credentials (r : IntegrationRequest) : Bool :=
  Channel.hasKey r.to_publish "credentials"

/-- `IntegrationRequest.is_changed`: `not self.has_credentials`. -/
def IntegrationRequest.is_changed (r : IntegrationRequest) : Bool :=
  !r.has_credentials

/-- `self._to_publish.update(mapping)`: write a mapping to the wrapped
unit's channel. -/
def IntegrationRequest.to_publish_update (r : IntegrationRequest)
    (kvs : List (String × Value)) : IntegrationRequest :=
  { r with _unit := { r._unit with to_publish := Channel.update r.to_publish kvs } }

/-- `IntegrationRequest.set_credentials`: eight required positional
arguments, a variadic `*_` catch-all (embedded as the unused `_extras`),
and six keyword-only arguments defaulting to `None`; publishes the
fourteen flat fields with one `update`. -/
def IntegrationRequest.set_credentials (r : IntegrationRequest)
    (auth_url region username password user_domain_name
     project_domain_name project_name endpoint_tls_ca : Value)
    (_extras : List Value)
    (domain_id domain_name project_id project_domain_id
     user_domain_id version : Value) : IntegrationRequest :=
  r.to_publish_update
    [("auth_url", auth_url),
     ("region", region),
     ("username", username),
     ("password", password),
     ("domain_id", domain_id),
     ("domain_name", domain_name),
     ("endpoint_tls_ca", endpoint_tls_ca),
     ("project_domain_name", project_domain_name),
     ("project_domain_id", project_domain_id),
     ("project_id", project_id),
     ("project_name", project_name),
     ("user_domain_id", user_domain_id),
     ("user_domain_name", user_domain_name),
     ("version", version)]

/-- `IntegrationRequest.set_lbaas_config`: publishes the seven LBaaS
fields with one `update`. -/
def IntegrationRequest.set_lbaas_config (r : IntegrationRequest)
    (subnet_id floating_network_id lb_method manage_security_groups
     has_octavia lb_enabled internal_lb : Value) : IntegrationRequest :=
  r.to_publish_update
    [("subnet_id", subnet_id),
     ("floating_network_id", floating_network_id),
     ("lb_method", lb_method),
     ("internal_lb", internal_lb),
     ("manage_security_groups", manage_security_groups),
     ("has_octavia", has_octavia),
     ("lb_enabled", lb_enabled)]

/-- Calling `set_lbaas_config` with only its four required arguments: the
source signature defaults `has_octavia=None`, `lb_enabled=None`,
`internal_lb=False`. -/
def IntegrationRequest.set_lbaas_config_required (r : IntegrationRequest)
    (subnet_id floating_network_id lb_method manage_security_groups : Value) :
    IntegrationRequest :=
  r.set_lbaas_config subnet_id floating_network_id lb_method
    manage_security_groups (.scalar .null) (.scalar .null)
    (.scalar (.bool false))

/-- `IntegrationRequest.set_block_storage_config`: publishes the three
block-storage fields with one `update`. -/
def IntegrationRequest.set_block_storage_config (r : IntegrationRequest)
    (bs_version trust_device_path ignore_volume_az : Value) :
    IntegrationRequest :=
  r.to_publish_update
    [("bs_version", bs_version),
     ("trust_device_path", trust_device_path),
     ("ignore_volume_az", ignore_volume_az)]

/-- `IntegrationRequest.proxy_config`: read `proxy_config` from the
channel; empty mapping when falsy or not a dict, otherwise each value `v`
becomes `v or ""`. -/
def IntegrationRequest.proxy_config (r : IntegrationRequest) :
    List (String × Scalar) :=
  let data := (Channel.get r.to_publish "proxy_config").getD (.scalar .null)
  if !data.truthy || !data.isDict then []
  else data.dictEntries.map
    (fun kv => (kv.1, if kv.2.truthy then kv.2 else .str ""))

/-- `IntegrationRequest.set_proxy_config`: publish the given mapping under
the `proxy_config` key. -/
def IntegrationRequest.set_proxy_config (r : IntegrationRequest)
    (pc : Value) : IntegrationRequest :=
  r.to_publish_update [("proxy_config", pc)]

/-- State of an `OpenStackIntegrationProvides` endpoint instance: the
joined units reported by the relation bus (in join order), the
`_all_requests` memo attribute, and the two reactive flags scoped to this
endpoint. -/
structure OpenStackIntegrationProvides where
  all_joined_units : List RemoteUnit
  _all_requests : Option (List IntegrationRequest)
  requests_pending : Bool
  changed : Bool
deriving DecidableEq, Repr

/-- `OpenStackIntegrationProvides.all_requests`: one `IntegrationRequest`
per joined unit, computed once and memoized on `self._all_requests`.
Returns the list together with the updated endpoint state. -/
def OpenStackIntegrationProvides.all_requests
    (self : OpenStackIntegrationProvides) :
    List IntegrationRequest × OpenStackIntegrationProvides :=
  match self._all_requests with
  | some reqs => (reqs, self)
  | none =>
      let reqs := self.all_joined_units.map (fun u => { _unit := u })
      (reqs, { self with _all_requests := some reqs })

/-- `OpenStackIntegrationProvides.new_requests`:
`list(filter(is_changed, self.all_requests))`. -/
def OpenStackIntegrationProvides.new_requests
    (self : OpenStackIntegrationProvides) :
    List IntegrationRequest × OpenStackIntegrationProvides :=
  let p := self.all_requests
  (p.1.filter (fun r => r.is_changed), p.2)

/-- `OpenStackIntegrationProvides.check_requests` (the
`endpoint.{endpoint_name}.changed` handler):
`toggle_flag('requests-pending', len(self.all_requests) > 0)` then
`clear_flag('changed')`. -/
def OpenStackIntegrationProvides.check_requests
    (self : OpenStackIntegrationProvides) : OpenStackIntegrationProvides :=
  let p := self.all_requests
  { p.2 with requests_pending := decide (0 < p.1.length), changed := false }

/-- `OpenStackIntegrationProvides.mark_completed`:
`clear_flag('requests-pending')`. -/
def OpenStackIntegrationProvides.mark_completed
    (self : OpenStackIntegrationProvides) : OpenStackIntegrationProvides :=
  { self with requests_pending := false }

/-! Concrete fixtures used by counterexamples and witnesses. -/

/-- A fresh remote unit with an empty channel. -/
def freshUnit : RemoteUnit := { unit_name := "remote/0", to_publish := [] }

/-- A remote unit whose channel already holds a `credentials` key. -/
def credUnit : RemoteUnit :=
  { unit_name := "remote/1", to_publish := [("credentials", .scalar (.str "ok"))] }

/-- A request over the fresh unit. -/
def freshRequest : IntegrationRequest := { _unit := freshUnit }

/-- A request whose channel holds a malformed (non-mapping) `proxy_config`
entry. -/
def malformedRequest : IntegrationRequest :=
  { _unit := { unit_name := "remote/2",
               to_publish := [("proxy_config", .scalar (.str "bad"))] } }

/-- Endpoint state with a single joined unit that already has the
`credentials` key, fresh memo cache, no flags raised, `changed` pending. -/
def credState : OpenStackIntegrationProvides :=
  { all_joined_units := [credUnit], _all_requests := none,
    requests_pending := false, changed := true }

/-- Endpoint state with a single fresh joined unit and a fresh memo cache. -/
def freshState : OpenStackIntegrationProvides :=
  { all_joined_units := [freshUnit], _all_requests := none,
    requests_pending := false, changed := true }

/-- Endpoint state with zero joined units and a fresh memo cache. -/
def emptyState : OpenStackIntegrationProvides :=
  { all_joined_units := [], _all_requests := none,
    requests_pending := false, changed := true }

/-- Endpoint state with two joined units and a fresh memo cache. -/
def twoUnitState : OpenStackIntegrationProvides :=
  { all_joined_units := [freshUnit, credUnit], _all_requests := none,
    requests_pending := false, changed := false }

/-! Channel lemmas shared by the claim theorems. -/

theorem Channel.get_set_eq (ch : Channel) (k : String) (v : Value) :
    Channel.get (Channel.set ch k v) k = some v := by
  induction ch with
  | nil => simp [Channel.set, Channel.get]
  | cons kv rest ih =>
      obtain ⟨k₁, v₁⟩ := kv
      by_cases h : k₁ = k <;> simp [Channel.set, Channel.get, h, ih]

theorem Channel.get_set_ne (ch : Channel) (k k' : String) (v : Value)
    (h : k ≠ k') :
    Channel.get (Channel.set ch k v) k' = Channel.get ch k' := by
  induction ch with
  | nil => simp [Channel.set, Channel.get, h]
  | cons kv rest ih =>
      obtain ⟨k₁, v₁⟩ := kv
      by_cases h₁ : k₁ = k <;> simp [Channel.set, Channel.get, h, h₁, ih]

/-- C1: On a fresh request with an empty channel, calling `set_credentials`
with the eight required arguments leaves `has_credentials` false and
`is_changed` true: `set_credentials` publishes only the fourteen flat
credential fields and never the `credentials` key that `has_credentials`
tests, contradicting the docstring of `has_credentials` ("whether or not
credentials have been set via `set_credentials`") and the claim. -/
theorem C1_set_credentials_never_sets_has_credentials :
    (freshRequest.set_credentials (.scalar (.str "http://auth"))
        (.scalar (.str "region1")) (.scalar (.str "user"))
        (.scalar (.str "pw")) (.scalar (.str "udn")) (.scalar (.str "pdn"))
        (.scalar (.str "proj")) (.scalar (.str "ca")) []
        (.scalar .null) (.scalar .null) (.scalar .null) (.scalar .null)
        (.scalar .null) (.scalar .null)).has_credentials = false
    ∧ (freshRequest.set_credentials (.scalar (.str "http://auth"))
        (.scalar (.str "region1")) (.scalar (.str "user"))
        (.scalar (.str "pw")) (.scalar (.str "udn")) (.scalar (.str "pdn"))
        (.scalar (.str "proj")) (.scalar (.str "ca")) []
        (.scalar .null) (.scalar .null) (.scalar .null) (.scalar .null)
        (.scalar .null) (.scalar .null)).is_changed = true := by decide

/-- C2: counterexample to the claim as stated: in a state with one joined
unit whose channel already has the `credentials` key, `new_requests` is
empty, yet `check_requests` raises the `requests-pending` flag, because the
source toggles on `len(self.all_requests) > 0`, not on `new_requests`. -/
theorem C2_counterexample_pending_despite_no_new_requests :
    (credState.new_requests).1 = []
    ∧ (credState.check_requests).requests_pending = true := by decide

/-- C2 (amended): `check_requests` sets `requests-pending` iff
`all_requests` is non-empty (at least one joined unit), regardless of
credentials, and then clears the `changed` flag; with zero joined units
(and a fresh memo cache) the pending flag is never raised. -/
theorem C2_check_requests_toggles_on_all_requests
    (st : OpenStackIntegrationProvides) :
    (st.check_requests).requests_pending
        = decide (0 < (st.all_requests).1.length)
    ∧ (st.check_requests).changed = false
    ∧ (st.all_joined_units = [] → st._all_requests = none →
        (st.check_requests).requests_pending = false) := by
  refine ⟨rfl, rfl, fun h₁ h₂ => ?_⟩
  simp [OpenStackIntegrationProvides.check_requests,
        OpenStackIntegrationProvides.all_requests, h₁, h₂]

/-- C2 witness: the amended theorem applied to the zero-unit state. -/
theorem C2_check_requests_toggles_on_all_requests_witness :
    (emptyState.check_requests).requests_pending
        = decide (0 < (emptyState.all_requests).1.length)
    ∧ (emptyState.check_requests).changed = false
    ∧ (emptyState.check_requests).requests_pending = false :=
  ⟨(C2_check_requests_toggles_on_all_requests emptyState).1,
   (C2_check_requests_toggles_on_all_requests emptyState).2.1,
   (C2_check_requests_toggles_on_all_requests emptyState).2.2 rfl rfl⟩

/-- C3: counterexample to the claim as stated: computing `new_requests`
on a fresh registry with one joined unit does change the registry — it
populates the `_all_requests` memo attribute as a side effect of reading
`self.all_requests`. -/
theorem C3_counterexample_new_requests_mutates_registry :
    (freshState.new_requests).2 ≠ freshState := by decide

/-- C3 (amended): `new_requests` is exactly the subsequence of
`all_requests` whose elements satisfy NOT `has_credentials` (order
preserved), it does not touch the joined units (hence no channel), nor
either flag; its only effect on the registry is the one `all_requests`
itself performs, namely populating the memo cache on first access. -/
theorem C3_new_requests_filters_all_requests
    (st : OpenStackIntegrationProvides) :
    (st.new_requests).1
        = (st.all_requests).1.filter (fun r => !r.has_credentials)
    ∧ (st.new_requests).2 = (st.all_requests).2
    ∧ (st.new_requests).2.all_joined_units = st.all_joined_units
    ∧ (st.new_requests).2.requests_pending = st.requests_pending
    ∧ (st.new_requests).2.changed = st.changed := by
  refine ⟨rfl, rfl, ?_, ?_, ?_⟩ <;>
    cases h : st._all_requests <;>
      simp [OpenStackIntegrationProvides.new_requests,
            OpenStackIntegrationProvides.all_requests, h]

/-- C4: on a registry whose memo cache has not yet been populated,
`all_requests` returns one `IntegrationRequest` wrapping each joined unit,
in the join order reported by the relation bus, hence with the same
length; an empty join set yields the empty sequence. -/
theorem C4_all_requests_one_per_joined_unit
    (st : OpenStackIntegrationProvides) (h : st._all_requests = none) :
    (st.all_requests).1 = st.all_joined_units.map (fun u => { _unit := u })
    ∧ (st.all_requests).1.length = st.all_joined_units.length := by
  refine ⟨?_, ?_⟩ <;>
    simp [OpenStackIntegrationProvides.all_requests, h]

/-- C4 witness: the theorem applied to a two-unit state with a fresh memo
cache. -/
theorem C4_all_requests_one_per_joined_unit_witness :
    twoUnitState._all_requests = none
    ∧ ((twoUnitState.all_requests).1
          = twoUnitState.all_joined_units.map (fun u => { _unit := u })
       ∧ (twoUnitState.all_requests).1.length
          = twoUnitState.all_joined_units.length) :=
  ⟨rfl, C4_all_requests_one_per_joined_unit twoUnitState rfl⟩

/-- C5: `all_requests` is memoized per instance: after one call, any later
call on the resulting state returns the identical list and leaves the
state untouched, even if the set of joined units has since been replaced
by an arbitrary other list. -/
theorem C5_all_requests_memoized (st : OpenStackIntegrationProvides)
    (units : List RemoteUnit) :
    (({ (st.all_requests).2 with all_joined_units := units }).all_requests).1
        = (st.all_requests).1
    ∧ (({ (st.all_requests).2 with all_joined_units := units }).all_requests).2
        = { (st.all_requests).2 with all_joined_units := units } := by
  cases h : st._all_requests <;>
    simp [OpenStackIntegrationProvides.all_requests, h]

/-- C6: `mark_completed` clears the `requests-pending` flag and changes
nothing else: the joined units (hence every channel and every derived
`has_credentials`/`is_changed` value), the memo cache, the `changed` flag,
and the request list produced by `all_requests` are all unchanged. -/
theorem C6_mark_completed_only_clears_pending
    (st : OpenStackIntegrationProvides) :
    (st.mark_completed).requests_pending = false
    ∧ (st.mark_completed).all_joined_units = st.all_joined_units
    ∧ (st.mark_completed)._all_requests = st._all_requests
    ∧ (st.mark_completed).changed = st.changed
    ∧ ((st.mark_completed).all_requests).1 = (st.all_requests).1 := by
  refine ⟨rfl, rfl, rfl, rfl, ?_⟩
  cases h : st._all_requests <;>
    simp [OpenStackIntegrationProvides.mark_completed,
          OpenStackIntegrationProvides.all_requests, h]

/-- C7: `proxy_config` returns the empty mapping whenever the channel
value at `proxy_config` (with absence read as `None`) is not a mapping —
this covers a missing entry and every malformed (non-dict) entry; the
read is total, so it never errors and never returns null. -/
theorem C7_proxy_config_empty_on_absent_or_malformed
    (r : IntegrationRequest)
    (h : ((Channel.get r.to_publish "proxy_config").getD
            (.scalar .null)).isDict = false) :
    r.proxy_config = [] := by
  simp [IntegrationRequest.proxy_config, h]

/-- C7 witness: the theorem applied to a request whose `proxy_config`
entry is a malformed (string-valued) record. -/
theorem C7_proxy_config_empty_on_absent_or_malformed_witness :
    ((Channel.get malformedRequest.to_publish "proxy_config").getD
        (.scalar .null)).isDict = false
    ∧ malformedRequest.proxy_config = [] :=
  ⟨by decide,
   C7_proxy_config_empty_on_absent_or_malformed malformedRequest (by decide)⟩

/-- Normalizing the entries of a string-or-null mapping: the source's
`v or ""` agrees with "replace null by the empty string, keep everything
else" on every entry whose value is a string or null. -/
theorem map_or_empty_eq_normalize_null (m : List (String × Scalar))
    (h : m.all (fun kv => kv.2.isStrOrNull) = true) :
    m.map (fun kv => (kv.1, if kv.2.truthy then kv.2 else Scalar.str ""))
      = m.map (fun kv =>
          (kv.1, if kv.2 = Scalar.null then Scalar.str "" else kv.2)) := by
  induction m with
  | nil => rfl
  | cons kv rest ih =>
      rw [List.all_cons, Bool.and_eq_true] at h
      simp only [List.map_cons, ih h.2]
      congr 1
      obtain ⟨k, v⟩ := kv
      cases v with
      | null => rfl
      | str s =>
          by_cases hs : s = "" <;>
            simp [Scalar.truthy, hs]
      | int n => simp [Scalar.isStrOrNull] at h
      | bool b => simp [Scalar.isStrOrNull] at h

/-- C8: round-trip: writing a mapping `m` whose values are strings or null
with `set_proxy_config` and reading `proxy_config` back returns `m` with
every null value replaced by the empty string and all other entries
unchanged, in order. -/
theorem C8_set_proxy_config_roundtrip (r : IntegrationRequest)
    (m : List (String × Scalar))
    (h : m.all (fun kv => kv.2.isStrOrNull) = true) :
    (r.set_proxy_config (.dict m)).proxy_config
      = m.map (fun kv =>
          (kv.1, if kv.2 = Scalar.null then Scalar.str "" else kv.2)) := by
  have hget : Channel.get (r.set_proxy_config (.dict m)).to_publish
      "proxy_config" = some (.dict m) := by
    simp [IntegrationRequest.set_proxy_config,
          IntegrationRequest.to_publish_update, IntegrationRequest.to_publish,
          Channel.update, Channel.get_set_eq]
  rw [IntegrationRequest.proxy_config, hget]
  cases m with
  | nil => simp [Value.truthy]
  | cons kv rest =>
      rw [Option.getD_some, if_neg (by simp [Value.truthy, Value.isDict]),
          Value.dictEntries]
      exact map_or_empty_eq_normalize_null (kv :: rest) h

/-- C8 witness: the concrete round-trip from the spec, on a fresh request:
writing `{host: "proxy.example", port: None}` and reading back gives
`{host: "proxy.example", port: ""}`. -/
theorem C8_set_proxy_config_roundtrip_witness :
    (([("host", Scalar.str "proxy.example"),
       ("port", Scalar.null)] : List (String × Scalar)).all
        (fun kv => kv.2.isStrOrNull) = true)
    ∧ (freshRequest.set_proxy_config
          (.dict [("host", .str "proxy.example"),
                  ("port", .null)])).proxy_config
        = ([("host", Scalar.str "proxy.example"),
            ("port", Scalar.null)] : List (String × Scalar)).map
            (fun kv =>
              (kv.1, if kv.2 = Scalar.null then Scalar.str "" else kv.2)) :=
  ⟨by decide,
   C8_set_proxy_config_roundtrip freshRequest
     [("host", .str "proxy.example"), ("port", .null)] (by decide)⟩

/-- C9: `set_credentials` swallows any extra positional arguments with its
variadic `*_` catch-all: the resulting request (hence the published
record) is identical to the call with no extras, and the call is total,
so no error is raised. -/
theorem C9_set_credentials_ignores_extra_positionals
    (r : IntegrationRequest)
    (auth_url region username password user_domain_name project_domain_name
     project_name endpoint_tls_ca : Value) (extras : List Value)
    (domain_id domain_name project_id project_domain_id user_domain_id
     version : Value) :
    r.set_credentials auth_url region username password user_domain_name
        project_domain_name project_name endpoint_tls_ca extras
        domain_id domain_name project_id project_domain_id user_domain_id
        version
      = r.set_credentials auth_url region username password user_domain_name
          project_domain_name project_name endpoint_tls_ca []
          domain_id domain_name project_id project_domain_id user_domain_id
          version := rfl

/-- The channel after calling `set_lbaas_config` with only its four
required arguments (so with the source's defaults `has_octavia=None`,
`lb_enabled=None`, `internal_lb=False`). -/
def lbaasDefaultsChannel (r : IntegrationRequest)
    (subnet_id floating_network_id lb_method manage_security_groups : Value) :
    Channel :=
  (r.set_lbaas_config_required subnet_id floating_network_id lb_method
      manage_security_groups).to_publish

/-- C10: `set_lbaas_config` called with only its required arguments still
publishes all seven LBaaS fields in the one `update`: `has_octavia` and
`lb_enabled` are written present-but-null, and `internal_lb` defaults to
false rather than null. -/
theorem C10_set_lbaas_config_publishes_all_seven_fields
    (r : IntegrationRequest)
    (subnet_id floating_network_id lb_method manage_security_groups : Value) :
    Channel.get (lbaasDefaultsChannel r subnet_id floating_network_id
        lb_method manage_security_groups) "subnet_id" = some subnet_id
    ∧ Channel.get (lbaasDefaultsChannel r subnet_id floating_network_id
        lb_method manage_security_groups) "floating_network_id"
        = some floating_network_id
    ∧ Channel.get (lbaasDefaultsChannel r subnet_id floating_network_id
        lb_method manage_security_groups) "lb_method" = some lb_method
    ∧ Channel.get (lbaasDefaultsChannel r subnet_id floating_network_id
        lb_method manage_security_groups) "manage_security_groups"
        = some manage_security_groups
    ∧ Channel.get (lbaasDefaultsChannel r subnet_id floating_network_id
        lb_method manage_security_groups) "has_octavia"
        = some (.scalar .null)
    ∧ Channel.get (lbaasDefaultsChannel r subnet_id floating_network_id
        lb_method manage_security_groups) "lb_enabled"
        = some (.scalar .null)
    ∧ Channel.get (lbaasDefaultsChannel r subnet_id floating_network_id
        lb_method manage_security_groups) "internal_lb"
        = some (.scalar (.bool false)) := by
  refine ⟨?_, ?_, ?_, ?_, ?_, ?_, ?_⟩ <;>
    simp [lbaasDefaultsChannel, IntegrationRequest.set_lbaas_config_required,
          IntegrationRequest.set_lbaas_config,
          IntegrationRequest.to_publish_update, IntegrationRequest.to_publish,
          Channel.update, Channel.get_set_eq, Channel.get_set_ne]
